import Mathlib

/-!
Shallow embedding of the elevation-profile engine of `src/app.js`.

JavaScript numbers are modelled as real numbers.  Asynchronous tile I/O is
modelled by passing the network as a function `TileKey → Except Unit TileData`
and threading the tile cache explicitly; a thrown exception is an
`Except.error`.  The profile renderer's canvas side effects are modelled as a
list of `RenderAction`s (which placeholder or profile was drawn), plus a
`ProfileRender` record collecting the scale/shape decisions of
`drawElevationProfile`.
-/

/-- Fixed tile zoom level, `const TILE_ZOOM = 14` (line 57 of `app.js`). -/
def TILE_ZOOM : ℕ := 14

/-- Target sample spacing in meters, `const SAMPLE_SPACING_METERS = 80`
(line 58 of `app.js`). -/
noncomputable def SAMPLE_SPACING_METERS : ℝ := 80

/-- Route waypoint as read by the engine.  The source waypoint objects also
carry `id`, `type` and `note` fields, which the elevation-profile engine never
reads, so they are omitted from the embedding. -/
structure Waypoint where
  latitude : ℝ
  longitude : ℝ
  altitude : ℝ

/-- One elevation sample, exactly the object pushed by
`sampleElevationAlongRoute` (lines 481-487 of `app.js`). -/
structure Sample where
  distance : ℝ
  lat : ℝ
  lon : ℝ
  groundElevation : Option ℝ
  plannedAltitude : ℝ

/-- Model of JavaScript `Math.atan2 y x` on real arguments (signed zeros do
not exist in `ℝ`, so the `-0` edge cases of the IEEE function collapse into
the `x = 0` branches). -/
noncomputable def atan2 (y x : ℝ) : ℝ :=
  if 0 < x then Real.arctan (y / x)
  else if x < 0 ∧ 0 ≤ y then Real.arctan (y / x) + Real.pi
  else if x < 0 ∧ y < 0 then Real.arctan (y / x) - Real.pi
  else if x = 0 ∧ 0 < y then Real.pi / 2
  else if x = 0 ∧ y < 0 then -(Real.pi / 2)
  else 0

/-- Great-circle distance, `haversineDistance` (lines 422-433 of `app.js`). -/
noncomputable def haversineDistance (lat1 lon1 lat2 lon2 : ℝ) : ℝ :=
  let R : ℝ := 6371000
  let toRad := fun (deg : ℝ) => deg * Real.pi / 180
  let dLat := toRad (lat2 - lat1)
  let dLon := toRad (lon2 - lon1)
  let a := Real.sin (dLat / 2) * Real.sin (dLat / 2) +
    Real.cos (toRad lat1) * Real.cos (toRad lat2) *
      (Real.sin (dLon / 2) * Real.sin (dLon / 2))
  let c := 2 * atan2 (Real.sqrt a) (Real.sqrt (1 - a))
  R * c

/-- Linear interpolation, `interpolateCoordinate` (lines 435-437 of
`app.js`): `start + (end - start) * t`. -/
noncomputable def interpolateCoordinate (start stop t : ℝ) : ℝ :=
  start + (stop - start) * t

/-- Pixel-to-elevation decoding, `decodeElevation` (lines 545-551 of
`app.js`).  The JavaScript function returns `null` for the two sentinel
values and a finite number otherwise, modelled as `Option ℝ`. -/
noncomputable def decodeElevation (r g b : ℕ) : Option ℝ :=
  let value := r * 256 * 256 + g * 256 + b
  if value = 0 ∨ value = 256 * 256 * 256 - 1 then none
  else some ((value : ℝ) / 10 - 10000)

/-- Continuous Web-Mercator tile x coordinate at zoom `TILE_ZOOM`,
`const x = ((lon + 180) / 360) * n` (lines 499-500 of `app.js`). -/
noncomputable def tileXCoordinate (lon : ℝ) : ℝ :=
  (lon + 180) / 360 * (2 : ℝ) ^ TILE_ZOOM

/-- Continuous Web-Mercator tile y coordinate at zoom `TILE_ZOOM`,
`const y = (1 - Math.log(Math.tan(latRad) + 1 / Math.cos(latRad)) / Math.PI) / 2 * n`
(lines 498-501 of `app.js`). -/
noncomputable def tileYCoordinate (lat : ℝ) : ℝ :=
  let latRad := lat * Real.pi / 180
  (1 - Real.log (Real.tan latRad + 1 / Real.cos latRad) / Real.pi) / 2 *
    (2 : ℝ) ^ TILE_ZOOM

/-- Key of one raster elevation tile: `(zoom, x, y)`.  The source keys its
cache `Map` by the string `z/x/y`; the formatting is injective on integer
triples, so the triple itself is used here. -/
def TileKey : Type := ℕ × ℤ × ℤ

instance : DecidableEq TileKey := by
  unfold TileKey
  infer_instance

/-- Decoded tile pixel buffer: the flat RGBA byte array produced by
`getImageData(...).data` (line 540 of `app.js`). -/
def TileData : Type := List ℕ

/-- The in-memory tile cache (`const tileCache = new Map()`, line 56 of
`app.js`), threaded explicitly through the fetcher. -/
def Cache : Type := List (TileKey × TileData)

/-- Lookup in the tile cache, modelling `tileCache.has` / `tileCache.get`
(lines 524-526 of `app.js`). -/
def cacheLookup : Cache → TileKey → Option TileData
  | [], _ => none
  | (k', v) :: rest, k => if k' = k then some v else cacheLookup rest k

/-- Tile fetch with caching, `fetchElevationTile` (lines 522-543 of
`app.js`).  The argument `net` models the network together with image
decoding: a non-2xx HTTP status (the `throw` at line 531) or a failure of
`blob`/`createImageBitmap`/`getImageData` is an `Except.error`; an
`Except.ok` is the decoded RGBA buffer.  On success the buffer is stored in
the cache (line 541) and returned; the function returns the result together
with the updated cache. -/
def fetchElevationTile (net : TileKey → Except Unit TileData) (cache : Cache)
    (k : TileKey) : Except Unit TileData × Cache :=
  match cacheLookup cache k with
  | some v => (Except.ok v, cache)
  | none =>
    match net k with
    | Except.error e => (Except.error e, cache)
    | Except.ok d => (Except.ok d, (k, d) :: cache)

/-- Pixel lookup and decode inside `getElevationFromTile` (lines 510-515 of
`app.js`): `index = (yPixel * 256 + xPixel) * 4`, read channels
`r = tileData[index]`, `g = tileData[index+1]`, `b = tileData[index+2]`,
decode, and apply the `Number.isFinite` guard.  A JavaScript out-of-range
index yields `undefined`, making `decodeElevation` produce `NaN`, which the
`isFinite` guard turns into `null`; in the embedding an out-of-range `get?`
is `none`.  `decodeElevation` itself returns either `null` or a finite
number, so the `isFinite` guard is the identity on its result. -/
noncomputable def pixelElevation (tileData : TileData) (index : ℤ) : Option ℝ :=
  if 0 ≤ index then
    match List.get? tileData index.toNat, List.get? tileData (index.toNat + 1),
        List.get? tileData (index.toNat + 2) with
    | some r, some g, some b => decodeElevation r g b
    | _, _, _ => none
  else none

/-- Per-sample ground-elevation lookup, `getElevationFromTile`
(lines 496-520 of `app.js`).  The whole body is wrapped in `try`/`catch`
with `return null` in the `catch` (lines 516-519), so a tile-fetch error
becomes `none` and no error escapes.  The `if (!tileData) return null` guard
(line 508) is dead in the source (`fetchElevationTile` either throws or
returns a truthy buffer) and is subsumed by the `Except` split here. -/
noncomputable def getElevationFromTile (net : TileKey → Except Unit TileData)
    (cache : Cache) (lat lon : ℝ) : Option ℝ × Cache :=
  let x := tileXCoordinate lon
  let y := tileYCoordinate lat
  let xTile := ⌊x⌋
  let yTile := ⌊y⌋
  let xPixel := ⌊(x - (xTile : ℝ)) * 256⌋
  let yPixel := ⌊(y - (yTile : ℝ)) * 256⌋
  match fetchElevationTile net cache (TILE_ZOOM, xTile, yTile) with
  | (Except.error _, cacheAfter) => (none, cacheAfter)
  | (Except.ok tileData, cacheAfter) =>
      (pixelElevation tileData ((yPixel * 256 + xPixel) * 4), cacheAfter)

/-- Distance of one route segment, the `segmentDistance` of line 466 of
`app.js`. -/
noncomputable def segmentDist (a b : Waypoint) : ℝ :=
  haversineDistance a.latitude a.longitude b.latitude b.longitude

/-- Subdivision count of a segment,
`const steps = Math.max(1, Math.ceil(segmentDistance / SAMPLE_SPACING_METERS))`
(line 467 of `app.js`). -/
noncomputable def stepsFor (segmentDistance : ℝ) : ℕ :=
  max 1 (Int.ceil (segmentDistance / SAMPLE_SPACING_METERS)).toNat

/-- The sample built for subdivision `step` of the segment from `a` to `b`
(lines 470-487 of `app.js`): `t = step / steps`, interpolated coordinates
and planned altitude, elevation from the oracle, and
`distance = cumulativeDistance + segmentDistance * t`. -/
noncomputable def sampleAt (elev : ℝ → ℝ → Option ℝ) (a b : Waypoint)
    (cumulativeDistance : ℝ) (step : ℕ) : Sample :=
  let segmentDistance := segmentDist a b
  let steps := stepsFor segmentDistance
  let t := (step : ℝ) / (steps : ℝ)
  let lat := interpolateCoordinate a.latitude b.latitude t
  let lon := interpolateCoordinate a.longitude b.longitude t
  let groundElevation := elev lat lon
  let plannedAltitude := interpolateCoordinate a.altitude b.altitude t
  let distance := cumulativeDistance + segmentDistance * t
  ⟨distance, lat, lon, groundElevation, plannedAltitude⟩

/-- Samples contributed by segment `i` of the route: the inner `for step`
loop of `sampleElevationAlongRoute` (lines 466-488 of `app.js`).  The
parameter `elev` abstracts `getElevationFromTile`'s value for a coordinate
(the sampler only reads the returned elevation).  The `continue` at
lines 477-479 (`step === 0 && i !== 0`) is the `none` branch of the
`filterMap`; the source computes the skipped sample's elevation before
discarding it, which is value-level equivalent. -/
noncomputable def segmentSamples (elev : ℝ → ℝ → Option ℝ) (a b : Waypoint)
    (cumulativeDistance : ℝ) (i : ℕ) : List Sample :=
  (List.range (stepsFor (segmentDist a b) + 1)).filterMap fun step =>
    if step = 0 ∧ i ≠ 0 then none
    else some (sampleAt elev a b cumulativeDistance step)

/-- Outer `for i` loop of `sampleElevationAlongRoute` (lines 463-491 of
`app.js`), walking consecutive waypoint pairs while accumulating
`cumulativeDistance`. -/
noncomputable def sampleAux (elev : ℝ → ℝ → Option ℝ) :
    List Waypoint → ℝ → ℕ → List Sample
  | a :: b :: rest, cumulativeDistance, i =>
      segmentSamples elev a b cumulativeDistance i ++
        sampleAux elev (b :: rest) (cumulativeDistance + segmentDist a b) (i + 1)
  | _, _, _ => []

/-- Route sampler, `sampleElevationAlongRoute` (lines 459-494 of `app.js`). -/
noncomputable def sampleElevationAlongRoute (elev : ℝ → ℝ → Option ℝ)
    (waypoints : List Waypoint) : List Sample :=
  sampleAux elev waypoints 0 0

/-- Sum of the per-segment haversine distances of a route (the final value
of `cumulativeDistance` in `sampleElevationAlongRoute`). -/
noncomputable def totalRouteDistance : List Waypoint → ℝ
  | a :: b :: rest => segmentDist a b + totalRouteDistance (b :: rest)
  | _ => 0

/-- Modelled from the spec (re-statement for the refinement claim C4):
samples of segment `i` per the spec's words — `steps = max(1,
ceil(segmentDistance / 80))` subdivisions, `t = step/steps`, emitting
`step = 0 .. steps` for the first segment and `step = 1 .. steps` for every
later segment (no duplicated boundary sample). -/
noncomputable def specSegmentSamples (elev : ℝ → ℝ → Option ℝ) (a b : Waypoint)
    (cumulativeDistance : ℝ) (i : ℕ) : List Sample :=
  (if i = 0 then List.range (stepsFor (segmentDist a b) + 1)
   else List.range' 1 (stepsFor (segmentDist a b))).map
    (sampleAt elev a b cumulativeDistance)

/-- Modelled from the spec: route sampling as described in spec §4.5,
segment by segment using `specSegmentSamples`. -/
noncomputable def specSampleAux (elev : ℝ → ℝ → Option ℝ) :
    List Waypoint → ℝ → ℕ → List Sample
  | a :: b :: rest, cumulativeDistance, i =>
      specSegmentSamples elev a b cumulativeDistance i ++
        specSampleAux elev (b :: rest) (cumulativeDistance + segmentDist a b)
          (i + 1)
  | _, _, _ => []

/-- Modelled from the spec: the whole route sampler per the spec's words. -/
noncomputable def sampleRouteSpec (elev : ℝ → ℝ → Option ℝ)
    (waypoints : List Waypoint) : List Sample :=
  specSampleAux elev waypoints 0 0

/-- One observable drawing action on the profile canvas: either
`drawProfilePlaceholder msg` or `drawElevationProfile samples`. -/
inductive RenderAction where
  | placeholder : String → RenderAction
  | profile : List Sample → RenderAction

/-- Message of the optimistic "computing" placeholder (line 441 of
`app.js`). -/
def computingMessage : String := "地形断面を計算中…"

/-- Message of the "insufficient waypoints" placeholder (line 444 of
`app.js`). -/
def insufficientMessage : String :=
  "地形断面を表示するには2つ以上のウェイポイントが必要です。"

/-- Message of the "terrain data fetch failed" placeholder (line 455 of
`app.js`). -/
def fetchFailedMessage : String := "地形データの取得に失敗しました。"

/-- Scale and shape decisions of `drawElevationProfile`
(lines 564-615 of `app.js`). -/
structure ProfileRender where
  totalDistance : ℝ
  minElevation : ℝ
  maxElevation : ℝ
  terrainDrawn : Bool
  plannedPointCount : ℕ

/-- Decision model of `drawElevationProfile` (lines 564-615 of `app.js`):
`totalDistance = distances[distances.length - 1] || 1` (a missing or zero
last distance falls back to 1), `minElevation = Math.min(...elevations, 0)`,
`maxElevation = Math.max(...elevations, ...planned, minElevation + 10)`,
and the terrain polygon is drawn exactly when at least 2 samples have a
non-null ground elevation (lines 584-585). -/
noncomputable def drawElevationProfile (samples : List Sample) : ProfileRender :=
  let distances := samples.map Sample.distance
  let totalDistance : ℝ :=
    match distances.getLast? with
    | some d => if d = 0 then 1 else d
    | none => 1
  let elevations := samples.filterMap Sample.groundElevation
  let planned := samples.map Sample.plannedAltitude
  let minElevation := elevations.foldr min 0
  let maxElevation := (elevations ++ planned).foldr max (minElevation + 10)
  let validSamples := samples.filter fun s => s.groundElevation.isSome
  { totalDistance := totalDistance
    minElevation := minElevation
    maxElevation := maxElevation
    terrainDrawn := decide (2 ≤ validSamples.length)
    plannedPointCount := samples.length }

/-- Resumption view of `updateElevationProfile` (lines 439-457 of `app.js`).
`token` is the value captured by `const token = ++state.profileToken`
(line 440); `live` is `state.profileToken` as observed at the resumption
point after `await sampleElevationAlongRoute(...)` settles; `result` is the
outcome of that awaited call (`Except.ok` when it fulfills, `Except.error`
when it rejects).  The returned list is the sequence of drawing actions the
invocation performs: the optimistic "computing" placeholder first
(line 441), then the "insufficient" placeholder and early return for routes
shorter than 2 (lines 443-446), then — only if the captured token still
equals the live counter (lines 450, 454) — the profile or the failure
placeholder. -/
noncomputable def updateElevationProfileResumed (waypoints : List Waypoint)
    (result : Except Unit (List Sample)) (token live : ℕ) : List RenderAction :=
  RenderAction.placeholder computingMessage ::
    (if waypoints.length < 2 then [RenderAction.placeholder insufficientMessage]
     else
       match result with
       | Except.ok samples =>
           if token ≠ live then [] else [RenderAction.profile samples]
       | Except.error _ =>
           if token ≠ live then []
           else [RenderAction.placeholder fetchFailedMessage])

/-- Full refresh, `updateElevationProfile` (lines 439-457 of `app.js`), for
the elevation oracle `elev`.  In the source `sampleElevationAlongRoute`
never rejects (every per-sample failure is caught inside
`getElevationFromTile`), so the awaited result is always a fulfillment with
the sampler's value. -/
noncomputable def updateElevationProfile (elev : ℝ → ℝ → Option ℝ)
    (waypoints : List Waypoint) (token live : ℕ) : List RenderAction :=
  updateElevationProfileResumed waypoints
    (Except.ok (sampleElevationAlongRoute elev waypoints)) token live

/-- Elevation oracle induced by a session in which every tile fetch fails:
every per-sample lookup yields `null`. -/
def elevNone : ℝ → ℝ → Option ℝ := fun _ _ => none

/-- Shape of a sample with the ground elevation erased: the fields of a
sample that do not depend on the elevation oracle. -/
noncomputable def sampleShape (s : Sample) : ℝ × ℝ × ℝ × ℝ :=
  (s.distance, s.lat, s.lon, s.plannedAltitude)

/-- Concrete waypoint used by the witnesses. -/
noncomputable def cwp : Waypoint := ⟨35, 139, 100⟩

/-- Concrete two-waypoint route used by the witnesses. -/
noncomputable def cw : List Waypoint := [cwp, cwp]

/-!
Helper lemmas shared by the claim theorems.
-/

/-- A `filterMap` whose guard never fires is a `map`. -/
theorem filterMap_ite_eq_map {α β : Type _} (c : α → Prop) [DecidablePred c]
    (f : α → β) :
    ∀ l : List α, (∀ x ∈ l, ¬ c x) →
      (l.filterMap fun x => if c x then none else some (f x)) = l.map f
  | [], _ => rfl
  | x :: xs, h => by
    have hx : ¬ c x := h x (List.mem_cons_self x xs)
    simp only [List.filterMap_cons, List.map_cons, if_neg hx]
    exact congrArg _ (filterMap_ite_eq_map c f xs fun y hy =>
      h y (List.mem_cons_of_mem x hy))

/-- The skip of `step = 0` on non-first segments makes the per-segment loop
emit exactly the spec's range of steps. -/
theorem segmentSamples_eq_spec (elev : ℝ → ℝ → Option ℝ) (a b : Waypoint)
    (cumulativeDistance : ℝ) (i : ℕ) :
    segmentSamples elev a b cumulativeDistance i =
      specSegmentSamples elev a b cumulativeDistance i := by
  unfold segmentSamples specSegmentSamples
  by_cases hi : i = 0
  · subst hi
    rw [if_pos rfl]
    refine filterMap_ite_eq_map (fun step => step = 0 ∧ (0 : ℕ) ≠ 0) _ _ ?_
    simp
  · rw [if_neg hi]
    have hsplit : List.range (stepsFor (segmentDist a b) + 1) =
        0 :: List.range' 1 (stepsFor (segmentDist a b)) := by
      rw [List.range_eq_range', List.range'_succ]
    rw [hsplit, List.filterMap_cons,
      if_pos (show (0 : ℕ) = 0 ∧ i ≠ 0 from ⟨rfl, hi⟩)]
    refine filterMap_ite_eq_map (fun step => step = 0 ∧ i ≠ 0) _ _ ?_
    intro x hx
    rcases List.mem_range'.mp hx with ⟨j, _, rfl⟩
    omega

/-- The two sampler recursions agree segmentwise. -/
theorem sampleAux_eq_spec (elev : ℝ → ℝ → Option ℝ) :
    ∀ (ws : List Waypoint) (cumulativeDistance : ℝ) (i : ℕ),
      sampleAux elev ws cumulativeDistance i =
        specSampleAux elev ws cumulativeDistance i
  | a :: b :: rest, cumulativeDistance, i => by
    simp only [sampleAux, specSampleAux]
    rw [segmentSamples_eq_spec,
      sampleAux_eq_spec elev (b :: rest) (cumulativeDistance + segmentDist a b)
        (i + 1)]
  | [], _, _ => rfl
  | [a], _, _ => rfl

/-- Claim C4: the sampler emits the step-0 sample only for the first
segment, skips step 0 for every later segment (so no waypoint-boundary
sample is duplicated across adjacent segments), and uses
`steps = max(1, ceil(segmentDistance / 80))` subdivisions with
`t = step/steps` — i.e. it coincides with the sample sequence the spec
describes. -/
theorem sampleRoute_eq_spec (elev : ℝ → ℝ → Option ℝ)
    (waypoints : List Waypoint) :
    sampleElevationAlongRoute elev waypoints = sampleRouteSpec elev waypoints :=
  sampleAux_eq_spec elev waypoints 0 0

/-- Unfolding lemma for `decodeElevation`. -/
theorem decodeElevation_eq (r g b : ℕ) :
    decodeElevation r g b =
      if r * 256 * 256 + g * 256 + b = 0 ∨
          r * 256 * 256 + g * 256 + b = 256 * 256 * 256 - 1 then none
      else some (((r * 256 * 256 + g * 256 + b : ℕ) : ℝ) / 10 - 10000) := rfl

/-- Claim C5: `decodeElevation` returns `null` exactly on the two sentinel
24-bit values `0` and `16777215`, and otherwise returns
`value / 10 - 10000`. -/
theorem decodeElevation_characterization (r g b : ℕ) :
    (decodeElevation r g b = none ↔
      r * 65536 + g * 256 + b = 0 ∨ r * 65536 + g * 256 + b = 16777215) ∧
    (r * 65536 + g * 256 + b ≠ 0 → r * 65536 + g * 256 + b ≠ 16777215 →
      decodeElevation r g b =
        some (((r * 65536 + g * 256 + b : ℕ) : ℝ) / 10 - 10000)) := by
  have e1 : r * 256 * 256 + g * 256 + b = r * 65536 + g * 256 + b := by ring
  have e2 : 256 * 256 * 256 - 1 = 16777215 := by norm_num
  rw [decodeElevation_eq, e1, e2]
  constructor
  · constructor
    · intro h
      by_contra hc
      rw [if_neg hc] at h
      exact Option.noConfusion h
    · intro h
      rw [if_pos h]
  · intro h0 hM
    rw [if_neg (not_or.mpr ⟨h0, hM⟩)]

/-- Witness for claim C5 at the spec's concrete triples. -/
theorem decodeElevation_characterization_witness :
    decodeElevation 0 0 0 = none ∧ decodeElevation 255 255 255 = none ∧
    decodeElevation 0 0 10000 =
      some (((0 * 65536 + 0 * 256 + 10000 : ℕ) : ℝ) / 10 - 10000) :=
  ⟨(decodeElevation_characterization 0 0 0).1.mpr (by norm_num),
    (decodeElevation_characterization 255 255 255).1.mpr (by norm_num),
    (decodeElevation_characterization 0 0 10000).2 (by norm_num) (by norm_num)⟩

/-- Claim C8: the linear interpolation `start + (end - start) * t` hits the
endpoints exactly at `t = 0` and `t = 1`. -/
theorem interpolateCoordinate_endpoints (a b : ℝ) :
    interpolateCoordinate a b 0 = a ∧ interpolateCoordinate a b 1 = b := by
  unfold interpolateCoordinate
  constructor <;> ring

/-- JavaScript `Math.atan2` is nonnegative whenever its first argument is. -/
theorem atan2_nonneg {y x : ℝ} (hy : 0 ≤ y) : 0 ≤ atan2 y x := by
  unfold atan2
  split_ifs with h1 h2 h3 h4 h5
  · have h := Real.arctan_strictMono.monotone (div_nonneg hy h1.le)
    simpa [Real.arctan_zero] using h
  · have h := Real.neg_pi_div_two_lt_arctan (y / x)
    have hpi := Real.pi_pos
    linarith
  · exact absurd h3.2 (not_lt.mpr hy)
  · have hpi := Real.pi_pos
    linarith
  · exact absurd h5.2 (not_lt.mpr hy)
  · exact le_refl 0

/-- The haversine distance is nonnegative for arbitrary inputs. -/
theorem haversineDistance_nonneg (lat1 lon1 lat2 lon2 : ℝ) :
    0 ≤ haversineDistance lat1 lon1 lat2 lon2 := by
  refine mul_nonneg (by norm_num) (mul_nonneg (by norm_num) ?_)
  exact atan2_nonneg (Real.sqrt_nonneg _)

/-- Segment distances are nonnegative. -/
theorem segmentDist_nonneg (a b : Waypoint) : 0 ≤ segmentDist a b :=
  haversineDistance_nonneg _ _ _ _

/-- There is always at least one subdivision per segment. -/
theorem one_le_stepsFor (d : ℝ) : 1 ≤ stepsFor d := le_max_left 1 _

/-- The subdivision count is positive as a real number. -/
theorem stepsFor_pos_real (d : ℝ) : (0 : ℝ) < (stepsFor d : ℝ) := by
  have h := one_le_stepsFor d
  exact_mod_cast Nat.lt_of_lt_of_le Nat.zero_lt_one h

/-- Distance field of the sample built at a given step. -/
theorem sampleAt_distance (elev : ℝ → ℝ → Option ℝ) (a b : Waypoint)
    (cumulativeDistance : ℝ) (step : ℕ) :
    (sampleAt elev a b cumulativeDistance step).distance =
      cumulativeDistance +
        segmentDist a b * ((step : ℝ) / (stepsFor (segmentDist a b) : ℝ)) := rfl

/-- The stored ground elevation is the oracle applied to the stored sample
coordinates. -/
theorem sampleAt_groundElevation (elev : ℝ → ℝ → Option ℝ) (a b : Waypoint)
    (cumulativeDistance : ℝ) (step : ℕ) :
    (sampleAt elev a b cumulativeDistance step).groundElevation =
      elev (sampleAt elev a b cumulativeDistance step).lat
        (sampleAt elev a b cumulativeDistance step).lon := rfl

/-- Within a segment, the sample distance is monotone in the step index. -/
theorem sampleAt_distance_mono (elev : ℝ → ℝ → Option ℝ) (a b : Waypoint)
    (cumulativeDistance : ℝ) {s1 s2 : ℕ} (h : s1 ≤ s2) :
    (sampleAt elev a b cumulativeDistance s1).distance ≤
      (sampleAt elev a b cumulativeDistance s2).distance := by
  rw [sampleAt_distance, sampleAt_distance]
  have hd := segmentDist_nonneg a b
  have hn := stepsFor_pos_real (segmentDist a b)
  have hc : (s1 : ℝ) ≤ (s2 : ℝ) := by exact_mod_cast h
  gcongr

/-- A segment sample's distance is at least the running cumulative
distance. -/
theorem sampleAt_distance_lb (elev : ℝ → ℝ → Option ℝ) (a b : Waypoint)
    (cumulativeDistance : ℝ) (step : ℕ) :
    cumulativeDistance ≤ (sampleAt elev a b cumulativeDistance step).distance := by
  rw [sampleAt_distance]
  have hd := segmentDist_nonneg a b
  have hn := stepsFor_pos_real (segmentDist a b)
  have ht : (0 : ℝ) ≤ (step : ℝ) / (stepsFor (segmentDist a b) : ℝ) :=
    div_nonneg (Nat.cast_nonneg _) hn.le
  nlinarith

/-- A segment sample's distance is at most the cumulative distance plus the
segment distance. -/
theorem sampleAt_distance_ub (elev : ℝ → ℝ → Option ℝ) (a b : Waypoint)
    (cumulativeDistance : ℝ) {step : ℕ}
    (h : step ≤ stepsFor (segmentDist a b)) :
    (sampleAt elev a b cumulativeDistance step).distance ≤
      cumulativeDistance + segmentDist a b := by
  rw [sampleAt_distance]
  have hd := segmentDist_nonneg a b
  have hn := stepsFor_pos_real (segmentDist a b)
  have ht : (step : ℝ) / (stepsFor (segmentDist a b) : ℝ) ≤ 1 := by
    rw [div_le_one hn]
    exact_mod_cast h
  nlinarith

/-- Every step index emitted for a segment is at most the subdivision
count. -/
theorem specSegment_step_le {i steps step : ℕ}
    (h : step ∈ (if i = 0 then List.range (steps + 1)
      else List.range' 1 steps)) : step ≤ steps := by
  by_cases hi : i = 0
  · rw [if_pos hi] at h
    exact Nat.lt_succ_iff.mp (List.mem_range.mp h)
  · rw [if_neg hi] at h
    rcases List.mem_range'.mp h with ⟨j, hj, rfl⟩
    omega

/-- Bounds on the distances of the samples emitted for one segment. -/
theorem segmentSamples_distance_bounds (elev : ℝ → ℝ → Option ℝ)
    (a b : Waypoint) (cumulativeDistance : ℝ) (i : ℕ) {s : Sample}
    (hs : s ∈ segmentSamples elev a b cumulativeDistance i) :
    cumulativeDistance ≤ s.distance ∧
      s.distance ≤ cumulativeDistance + segmentDist a b := by
  rw [segmentSamples_eq_spec] at hs
  unfold specSegmentSamples at hs
  rcases List.mem_map.mp hs with ⟨step, hstep, rfl⟩
  exact ⟨sampleAt_distance_lb elev a b cumulativeDistance step,
    sampleAt_distance_ub elev a b cumulativeDistance (specSegment_step_le hstep)⟩

/-- The samples of one segment have non-decreasing distances. -/
theorem segmentSamples_pairwise (elev : ℝ → ℝ → Option ℝ) (a b : Waypoint)
    (cumulativeDistance : ℝ) (i : ℕ) :
    List.Pairwise (fun s1 s2 : Sample => s1.distance ≤ s2.distance)
      (segmentSamples elev a b cumulativeDistance i) := by
  rw [segmentSamples_eq_spec]
  unfold specSegmentSamples
  by_cases hi : i = 0
  · rw [if_pos hi]
    exact List.Pairwise.map _
      (fun x y hxy => sampleAt_distance_mono elev a b cumulativeDistance hxy.le)
      (List.pairwise_lt_range _)
  · rw [if_neg hi]
    exact List.Pairwise.map _
      (fun x y hxy => sampleAt_distance_mono elev a b cumulativeDistance hxy.le)
      (List.pairwise_lt_range' _ _)

/-- Equation lemma: the outer loop on a route with at least one segment. -/
theorem sampleAux_cons (elev : ℝ → ℝ → Option ℝ) (a b : Waypoint)
    (rest : List Waypoint) (cumulativeDistance : ℝ) (i : ℕ) :
    sampleAux elev (a :: b :: rest) cumulativeDistance i =
      segmentSamples elev a b cumulativeDistance i ++
        sampleAux elev (b :: rest) (cumulativeDistance + segmentDist a b)
          (i + 1) := by
  simp only [sampleAux]

/-- Equation lemma: the outer loop on a single waypoint emits nothing. -/
theorem sampleAux_single (elev : ℝ → ℝ → Option ℝ) (a : Waypoint)
    (cumulativeDistance : ℝ) (i : ℕ) :
    sampleAux elev [a] cumulativeDistance i = [] := by
  simp only [sampleAux]

/-- Equation lemma: the outer loop on an empty route emits nothing. -/
theorem sampleAux_nil (elev : ℝ → ℝ → Option ℝ) (cumulativeDistance : ℝ)
    (i : ℕ) : sampleAux elev [] cumulativeDistance i = [] := by
  simp only [sampleAux]

/-- Equation lemma for `totalRouteDistance` on a route with a segment. -/
theorem totalRouteDistance_cons (a b : Waypoint) (rest : List Waypoint) :
    totalRouteDistance (a :: b :: rest) =
      segmentDist a b + totalRouteDistance (b :: rest) := by
  simp only [totalRouteDistance]

/-- Equation lemma for `totalRouteDistance` on a single waypoint. -/
theorem totalRouteDistance_single (a : Waypoint) :
    totalRouteDistance [a] = 0 := by
  simp only [totalRouteDistance]

/-- Every segment contributes at least one sample. -/
theorem segmentSamples_ne_nil (elev : ℝ → ℝ → Option ℝ) (a b : Waypoint)
    (cumulativeDistance : ℝ) (i : ℕ) :
    segmentSamples elev a b cumulativeDistance i ≠ [] := by
  rw [segmentSamples_eq_spec]
  unfold specSegmentSamples
  have h1 := one_le_stepsFor (segmentDist a b)
  by_cases hi : i = 0
  · rw [if_pos hi]
    simp
  · rw [if_neg hi]
    simp only [ne_eq, List.map_eq_nil_iff, List.range'_eq_nil]
    omega

/-- A route with at least one segment produces at least one sample. -/
theorem sampleAux_ne_nil (elev : ℝ → ℝ → Option ℝ) (a b : Waypoint)
    (rest : List Waypoint) (cumulativeDistance : ℝ) (i : ℕ) :
    sampleAux elev (a :: b :: rest) cumulativeDistance i ≠ [] := by
  rw [sampleAux_cons]
  intro h
  exact segmentSamples_ne_nil elev a b cumulativeDistance i
    (List.append_eq_nil.mp h).1

/-- Every sample emitted from the suffix of the route has distance at least
the entry cumulative distance. -/
theorem sampleAux_distance_lb (elev : ℝ → ℝ → Option ℝ) :
    ∀ (ws : List Waypoint) (cumulativeDistance : ℝ) (i : ℕ) {s : Sample},
      s ∈ sampleAux elev ws cumulativeDistance i →
        cumulativeDistance ≤ s.distance
  | a :: b :: rest, cumulativeDistance, i, s, hs => by
    rw [sampleAux_cons] at hs
    rcases List.mem_append.mp hs with h | h
    · exact (segmentSamples_distance_bounds elev a b cumulativeDistance i h).1
    · have h2 := sampleAux_distance_lb elev (b :: rest)
        (cumulativeDistance + segmentDist a b) (i + 1) h
      have hd := segmentDist_nonneg a b
      linarith
  | [], cumulativeDistance, i, s, hs => by
    rw [sampleAux_nil] at hs
    exact absurd hs (List.not_mem_nil s)
  | [a], cumulativeDistance, i, s, hs => by
    rw [sampleAux_single] at hs
    exact absurd hs (List.not_mem_nil s)

/-- The whole emitted sample sequence has non-decreasing distances. -/
theorem sampleAux_pairwise (elev : ℝ → ℝ → Option ℝ) :
    ∀ (ws : List Waypoint) (cumulativeDistance : ℝ) (i : ℕ),
      List.Pairwise (fun s1 s2 : Sample => s1.distance ≤ s2.distance)
        (sampleAux elev ws cumulativeDistance i)
  | a :: b :: rest, cumulativeDistance, i => by
    rw [sampleAux_cons, List.pairwise_append]
    refine ⟨segmentSamples_pairwise elev a b cumulativeDistance i,
      sampleAux_pairwise elev (b :: rest)
        (cumulativeDistance + segmentDist a b) (i + 1), ?_⟩
    intro s1 h1 s2 h2
    have hub := (segmentSamples_distance_bounds elev a b cumulativeDistance i h1).2
    have hlb := sampleAux_distance_lb elev (b :: rest)
      (cumulativeDistance + segmentDist a b) (i + 1) h2
    linarith
  | [], _, _ => by
    rw [sampleAux_nil]
    exact List.Pairwise.nil
  | [a], _, _ => by
    rw [sampleAux_single]
    exact List.Pairwise.nil

/-- The first sample of a first segment sits at the entry distance. -/
theorem sampleAt_zero_distance (elev : ℝ → ℝ → Option ℝ) (a b : Waypoint)
    (cumulativeDistance : ℝ) :
    (sampleAt elev a b cumulativeDistance 0).distance = cumulativeDistance := by
  rw [sampleAt_distance]
  norm_num

/-- Head of the first segment's sample list. -/
theorem segmentSamples_head (elev : ℝ → ℝ → Option ℝ) (a b : Waypoint)
    (cumulativeDistance : ℝ) :
    (segmentSamples elev a b cumulativeDistance 0).head? =
      some (sampleAt elev a b cumulativeDistance 0) := by
  rw [segmentSamples_eq_spec]
  unfold specSegmentSamples
  rw [if_pos rfl, List.head?_map]
  have h : (List.range (stepsFor (segmentDist a b) + 1)).head? = some 0 := by
    rw [List.range_eq_range', List.range'_succ]
    rfl
  rw [h]
  rfl

/-- The last sample of a segment sits at the exit cumulative distance. -/
theorem sampleAt_steps_distance (elev : ℝ → ℝ → Option ℝ) (a b : Waypoint)
    (cumulativeDistance : ℝ) :
    (sampleAt elev a b cumulativeDistance (stepsFor (segmentDist a b))).distance =
      cumulativeDistance + segmentDist a b := by
  rw [sampleAt_distance]
  have hn : ((stepsFor (segmentDist a b) : ℝ)) ≠ 0 := (stepsFor_pos_real _).ne'
  rw [div_self hn, mul_one]

/-- Last element of one segment's sample list. -/
theorem segmentSamples_getLast (elev : ℝ → ℝ → Option ℝ) (a b : Waypoint)
    (cumulativeDistance : ℝ) (i : ℕ) :
    (segmentSamples elev a b cumulativeDistance i).getLast? =
      some (sampleAt elev a b cumulativeDistance
        (stepsFor (segmentDist a b))) := by
  rw [segmentSamples_eq_spec]
  unfold specSegmentSamples
  rw [List.getLast?_map]
  by_cases hi : i = 0
  · rw [if_pos hi, List.range_succ, List.getLast?_concat]
    rfl
  · rw [if_neg hi]
    obtain ⟨m, hm⟩ : ∃ m, stepsFor (segmentDist a b) = m + 1 := by
      have h1 := one_le_stepsFor (segmentDist a b)
      exact ⟨stepsFor (segmentDist a b) - 1, by omega⟩
    rw [hm, List.range'_concat, List.getLast?_concat]
    have he : 1 + 1 * m = m + 1 := by omega
    rw [he]
    rfl

/-- Last emitted sample distance equals the entry distance plus the total
remaining route distance. -/
theorem sampleAux_getLast (elev : ℝ → ℝ → Option ℝ) :
    ∀ (a b : Waypoint) (rest : List Waypoint) (cumulativeDistance : ℝ)
      (i : ℕ),
      ((sampleAux elev (a :: b :: rest) cumulativeDistance i).getLast?).map
          Sample.distance =
        some (cumulativeDistance + totalRouteDistance (a :: b :: rest))
  | a, b, [], cumulativeDistance, i => by
    rw [sampleAux_cons, sampleAux_single, List.append_nil,
      segmentSamples_getLast, totalRouteDistance_cons,
      totalRouteDistance_single]
    simp [sampleAt_steps_distance]
  | a, b, c :: rest, cumulativeDistance, i => by
    rw [sampleAux_cons,
      List.getLast?_append_of_ne_nil _ (sampleAux_ne_nil elev b c rest _ _),
      sampleAux_getLast elev b c rest
        (cumulativeDistance + segmentDist a b) (i + 1)]
    simp only [totalRouteDistance_cons]
    congr 1
    ring

/-- Claim C3: for every route of at least 2 waypoints the emitted distance
sequence is monotonically non-decreasing, starts at 0, and ends at the sum
of the per-segment haversine distances (exactly, in the real-number
model). -/
theorem sampleRoute_distance_monotone (elev : ℝ → ℝ → Option ℝ)
    (waypoints : List Waypoint) (h2 : 2 ≤ waypoints.length) :
    List.Pairwise (fun s1 s2 : Sample => s1.distance ≤ s2.distance)
      (sampleElevationAlongRoute elev waypoints) ∧
    ((sampleElevationAlongRoute elev waypoints).head?).map Sample.distance =
      some 0 ∧
    ((sampleElevationAlongRoute elev waypoints).getLast?).map Sample.distance =
      some (totalRouteDistance waypoints) := by
  obtain ⟨a, b, rest, rfl⟩ : ∃ a b rest, waypoints = a :: b :: rest := by
    match waypoints, h2 with
    | a :: b :: rest, _ => exact ⟨a, b, rest, rfl⟩
    | [], h2 => simp at h2
    | [a], h2 => simp at h2
  unfold sampleElevationAlongRoute
  refine ⟨sampleAux_pairwise elev _ 0 0, ?_, ?_⟩
  · rw [sampleAux_cons,
      List.head?_append_of_ne_nil _ (segmentSamples_ne_nil elev a b 0 0),
      segmentSamples_head]
    simp [sampleAt_zero_distance]
  · rw [sampleAux_getLast elev a b rest 0 0]
    simp

/-- Witness for claim C3 on a concrete two-waypoint route. -/
theorem sampleRoute_distance_monotone_witness :
    List.Pairwise (fun s1 s2 : Sample => s1.distance ≤ s2.distance)
      (sampleElevationAlongRoute elevNone cw) ∧
    ((sampleElevationAlongRoute elevNone cw).head?).map Sample.distance =
      some 0 ∧
    ((sampleElevationAlongRoute elevNone cw).getLast?).map Sample.distance =
      some (totalRouteDistance cw) :=
  sampleRoute_distance_monotone elevNone cw (by simp [cw])

/-- The elevation-independent shape of each built sample does not depend on
the elevation oracle. -/
theorem sampleShape_sampleAt (elev₁ elev₂ : ℝ → ℝ → Option ℝ) (a b : Waypoint)
    (cumulativeDistance : ℝ) (step : ℕ) :
    sampleShape (sampleAt elev₁ a b cumulativeDistance step) =
      sampleShape (sampleAt elev₂ a b cumulativeDistance step) := rfl

/-- One segment's sample shapes do not depend on the elevation oracle. -/
theorem segmentSamples_shape (elev₁ elev₂ : ℝ → ℝ → Option ℝ) (a b : Waypoint)
    (cumulativeDistance : ℝ) (i : ℕ) :
    (segmentSamples elev₁ a b cumulativeDistance i).map sampleShape =
      (segmentSamples elev₂ a b cumulativeDistance i).map sampleShape := by
  rw [segmentSamples_eq_spec, segmentSamples_eq_spec]
  unfold specSegmentSamples
  rw [List.map_map, List.map_map]
  rfl

/-- The whole sample sequence's shapes do not depend on the elevation
oracle. -/
theorem sampleAux_shape (elev₁ elev₂ : ℝ → ℝ → Option ℝ) :
    ∀ (ws : List Waypoint) (cumulativeDistance : ℝ) (i : ℕ),
      (sampleAux elev₁ ws cumulativeDistance i).map sampleShape =
        (sampleAux elev₂ ws cumulativeDistance i).map sampleShape
  | a :: b :: rest, cumulativeDistance, i => by
    rw [sampleAux_cons, sampleAux_cons, List.map_append, List.map_append,
      segmentSamples_shape elev₁ elev₂ a b cumulativeDistance i,
      sampleAux_shape elev₁ elev₂ (b :: rest)
        (cumulativeDistance + segmentDist a b) (i + 1)]
  | [], _, _ => rfl
  | [a], _, _ => rfl

/-- Every emitted sample stores the oracle's answer at its own
coordinates. -/
theorem sampleAux_groundElevation (elev : ℝ → ℝ → Option ℝ) :
    ∀ (ws : List Waypoint) (cumulativeDistance : ℝ) (i : ℕ) {s : Sample},
      s ∈ sampleAux elev ws cumulativeDistance i →
        s.groundElevation = elev s.lat s.lon
  | a :: b :: rest, cumulativeDistance, i, s, hs => by
    rw [sampleAux_cons] at hs
    rcases List.mem_append.mp hs with h | h
    · rw [segmentSamples_eq_spec] at h
      unfold specSegmentSamples at h
      rcases List.mem_map.mp h with ⟨step, _, rfl⟩
      rfl
    · exact sampleAux_groundElevation elev (b :: rest)
        (cumulativeDistance + segmentDist a b) (i + 1) h
  | [], _, _, s, hs => by
    rw [sampleAux_nil] at hs
    exact absurd hs (List.not_mem_nil s)
  | [a], _, _, s, hs => by
    rw [sampleAux_single] at hs
    exact absurd hs (List.not_mem_nil s)

/-- Claim C6: per-sample lookup failures are contained.  The sample
sequence's length and elevation-independent fields are the same for every
elevation oracle (so a failing lookup affects only its own sample and
sampling continues); each sample's stored ground elevation is exactly the
per-sample lookup's answer at the sample's coordinates; and
`getElevationFromTile` turns a session whose every tile fetch throws into a
plain `null` result — no exception escapes the per-sample boundary. -/
theorem perSampleFailure_contained :
    (∀ (elev₁ elev₂ : ℝ → ℝ → Option ℝ) (waypoints : List Waypoint),
      (sampleElevationAlongRoute elev₁ waypoints).map sampleShape =
        (sampleElevationAlongRoute elev₂ waypoints).map sampleShape) ∧
    (∀ (elev : ℝ → ℝ → Option ℝ) (waypoints : List Waypoint) (s : Sample),
      s ∈ sampleElevationAlongRoute elev waypoints →
        s.groundElevation = elev s.lat s.lon) ∧
    (∀ (net : TileKey → Except Unit TileData) (lat lon : ℝ),
      (∀ k, net k = Except.error ()) →
        getElevationFromTile net [] lat lon = (none, [])) := by
  refine ⟨?_, ?_, ?_⟩
  · intro elev₁ elev₂ waypoints
    exact sampleAux_shape elev₁ elev₂ waypoints 0 0
  · intro elev waypoints s hs
    exact sampleAux_groundElevation elev waypoints 0 0 hs
  · intro net lat lon hnet
    simp only [getElevationFromTile, fetchElevationTile, cacheLookup, hnet]

/-- Witness for claim C6: a concrete session with an always-failing network
and an empty cache yields a `null` elevation and an unchanged cache. -/
theorem perSampleFailure_contained_witness :
    getElevationFromTile (fun _ => Except.error ()) [] 0 0 = (none, []) :=
  perSampleFailure_contained.2.2 (fun _ => Except.error ()) 0 0 (fun _ => rfl)

/-- Claim C2: a refresh whose captured token is superseded by the time its
sampler call settles renders neither the profile nor the failure
placeholder. -/
theorem staleRefresh_renders_nothing (waypoints : List Waypoint)
    (result : Except Unit (List Sample)) (token live : ℕ)
    (h2 : 2 ≤ waypoints.length) (hstale : token ≠ live) :
    (∀ samples, RenderAction.profile samples ∉
        updateElevationProfileResumed waypoints result token live) ∧
    RenderAction.placeholder fetchFailedMessage ∉
      updateElevationProfileResumed waypoints result token live := by
  have hout : updateElevationProfileResumed waypoints result token live =
      [RenderAction.placeholder computingMessage] := by
    unfold updateElevationProfileResumed
    rw [if_neg (by omega)]
    cases result with
    | ok samples => simp [hstale]
    | error e => simp [hstale]
  rw [hout]
  constructor
  · intro samples hmem
    simp at hmem
  · intro hmem
    simp [computingMessage, fetchFailedMessage] at hmem

/-- Witness for claim C2 on a concrete stale refresh. -/
theorem staleRefresh_renders_nothing_witness :
    RenderAction.profile [] ∉
        updateElevationProfileResumed cw (Except.ok []) 1 2 ∧
    RenderAction.placeholder fetchFailedMessage ∉
      updateElevationProfileResumed cw (Except.ok []) 1 2 :=
  ⟨(staleRefresh_renders_nothing cw (Except.ok []) 1 2 (by simp [cw])
      (by decide)).1 [],
    (staleRefresh_renders_nothing cw (Except.ok []) 1 2 (by simp [cw])
      (by decide)).2⟩

/-- Claim C7: a route with fewer than 2 waypoints draws the "insufficient
waypoints" placeholder after the optimistic "computing" one, and the
outcome is independent of the elevation oracle (the sampler is never
consulted, so no tile fetch or cache access happens). -/
theorem insufficientRoute_placeholder (elev : ℝ → ℝ → Option ℝ)
    (waypoints : List Waypoint) (token live : ℕ)
    (h : waypoints.length < 2) :
    updateElevationProfile elev waypoints token live =
      [RenderAction.placeholder computingMessage,
        RenderAction.placeholder insufficientMessage] ∧
    ∀ elev₂ : ℝ → ℝ → Option ℝ,
      updateElevationProfile elev₂ waypoints token live =
        updateElevationProfile elev waypoints token live := by
  have hgen : ∀ e : ℝ → ℝ → Option ℝ,
      updateElevationProfile e waypoints token live =
        [RenderAction.placeholder computingMessage,
          RenderAction.placeholder insufficientMessage] := by
    intro e
    unfold updateElevationProfile updateElevationProfileResumed
    rw [if_pos h]
  exact ⟨hgen elev, fun elev₂ => (hgen elev₂).trans (hgen elev).symm⟩

/-- Witness for claim C7 on a concrete single-waypoint route. -/
theorem insufficientRoute_placeholder_witness :
    updateElevationProfile elevNone [cwp] 1 1 =
      [RenderAction.placeholder computingMessage,
        RenderAction.placeholder insufficientMessage] :=
  (insufficientRoute_placeholder elevNone [cwp] 1 1 (by simp)).1

/-- The haversine distance from a point to itself is zero. -/
theorem haversineDistance_self (lat lon : ℝ) :
    haversineDistance lat lon lat lon = 0 := by
  unfold haversineDistance atan2
  norm_num

/-- The concrete witness segment has zero length. -/
theorem segmentDist_cwp : segmentDist cwp cwp = 0 :=
  haversineDistance_self 35 139

/-- A zero-length segment still gets one subdivision. -/
theorem stepsFor_zero : stepsFor 0 = 1 := by
  unfold stepsFor
  norm_num [SAMPLE_SPACING_METERS]

/-- The sampler on the concrete route emits exactly the two samples of its
single (zero-length) segment. -/
theorem sampleRoute_cw (elev : ℝ → ℝ → Option ℝ) :
    sampleElevationAlongRoute elev cw =
      [sampleAt elev cwp cwp 0 0, sampleAt elev cwp cwp 0 1] := by
  unfold sampleElevationAlongRoute cw
  rw [sampleAux_cons, sampleAux_single, List.append_nil,
    segmentSamples_eq_spec]
  unfold specSegmentSamples
  rw [if_pos rfl]
  have h : stepsFor (segmentDist cwp cwp) = 1 := by
    rw [segmentDist_cwp, stepsFor_zero]
  rw [h]
  rfl

/-- Claim C1 counterexample: on the concrete route `cw` with every
per-sample tile lookup failing, the produced sample set consists of 2
samples whose ground elevations are all null, yet the refresh (whose token
is still current) draws the profile chart — the "terrain data fetch
failed" placeholder is not rendered. -/
theorem allNullSamples_counterexample :
    (sampleElevationAlongRoute elevNone cw).length = 2 ∧
    (sampleElevationAlongRoute elevNone cw).map Sample.groundElevation =
      List.replicate 2 none ∧
    RenderAction.placeholder fetchFailedMessage ∉
      updateElevationProfile elevNone cw 1 1 ∧
    RenderAction.profile (sampleElevationAlongRoute elevNone cw) ∈
      updateElevationProfile elevNone cw 1 1 := by
  have hout : updateElevationProfile elevNone cw 1 1 =
      [RenderAction.placeholder computingMessage,
        RenderAction.profile (sampleElevationAlongRoute elevNone cw)] := by
    unfold updateElevationProfile updateElevationProfileResumed
    rw [if_neg (by simp [cw])]
    simp
  refine ⟨?_, ?_, ?_, ?_⟩
  · rw [sampleRoute_cw]
    rfl
  · rw [sampleRoute_cw]
    rfl
  · rw [hout]
    intro hmem
    simp [computingMessage, fetchFailedMessage] at hmem
  · rw [hout]
    simp

/-- Claim C1 (amended): when every sample's ground elevation in the
produced sample set is null, the refresh with a current token renders the
profile chart via `drawElevationProfile` — whose terrain polygon is
skipped, since fewer than 2 valid samples exist — rather than the "terrain
data fetch failed" placeholder, and does not crash; that placeholder is
reachable only when the sampler call itself rejects, which per-sample
error containment prevents tile failures from causing. -/
theorem allNullSamples_renders_profile (elev : ℝ → ℝ → Option ℝ)
    (waypoints : List Waypoint) (token : ℕ) (h2 : 2 ≤ waypoints.length)
    (hnull : ∀ s ∈ sampleElevationAlongRoute elev waypoints,
      s.groundElevation = none) :
    updateElevationProfile elev waypoints token token =
      [RenderAction.placeholder computingMessage,
        RenderAction.profile (sampleElevationAlongRoute elev waypoints)] ∧
    (drawElevationProfile
        (sampleElevationAlongRoute elev waypoints)).terrainDrawn = false := by
  constructor
  · unfold updateElevationProfile updateElevationProfileResumed
    rw [if_neg (by omega)]
    simp
  · have hv : (sampleElevationAlongRoute elev waypoints).filter
        (fun s => s.groundElevation.isSome) = [] := by
      rw [List.filter_eq_nil_iff]
      intro s hs
      simp [hnull s hs]
    show decide (2 ≤ ((sampleElevationAlongRoute elev waypoints).filter
        (fun s => s.groundElevation.isSome)).length) = false
    rw [hv]
    rfl

/-- Witness for the amended claim C1 on the concrete all-null session. -/
theorem allNullSamples_renders_profile_witness :
    updateElevationProfile elevNone cw 1 1 =
      [RenderAction.placeholder computingMessage,
        RenderAction.profile (sampleElevationAlongRoute elevNone cw)] ∧
    (drawElevationProfile
        (sampleElevationAlongRoute elevNone cw)).terrainDrawn = false :=
  allNullSamples_renders_profile elevNone cw 1 (by simp [cw])
    (fun s hs => (sampleAux_groundElevation elevNone cw 0 0 hs).trans rfl)

/-- Claim C10: the tile cache is updated only by a successful fetch.  A
cache hit bypasses the network; a thrown fetch (bad HTTP status or decode
failure) leaves the cache unchanged, so a retry for the same key consults
the network again; a success stores the decoded buffer under its key and
returns exactly the stored buffer. -/
theorem fetchElevationTile_cache_discipline
    (net : TileKey → Except Unit TileData) (cache : Cache) (k : TileKey) :
    (∀ v, cacheLookup cache k = some v →
      fetchElevationTile net cache k = (Except.ok v, cache)) ∧
    (∀ e, cacheLookup cache k = none → net k = Except.error e →
      fetchElevationTile net cache k = (Except.error e, cache)) ∧
    (∀ d, cacheLookup cache k = none → net k = Except.ok d →
      fetchElevationTile net cache k = (Except.ok d, (k, d) :: cache) ∧
        cacheLookup ((k, d) :: cache) k = some d) ∧
    (∀ (net₂ : TileKey → Except Unit TileData) (d : TileData),
      cacheLookup cache k = none → net k = Except.error () →
        net₂ k = Except.ok d →
        fetchElevationTile net₂ (fetchElevationTile net cache k).2 k =
          (Except.ok d, (k, d) :: cache)) := by
  refine ⟨?_, ?_, ?_, ?_⟩
  · intro v hv
    unfold fetchElevationTile
    rw [hv]
  · intro e hc hn
    unfold fetchElevationTile
    rw [hc, hn]
  · intro d hc hn
    constructor
    · unfold fetchElevationTile
      rw [hc, hn]
    · simp [cacheLookup]
  · intro net₂ d hc hn hn₂
    have h1 : fetchElevationTile net cache k = (Except.error (), cache) := by
      unfold fetchElevationTile
      rw [hc, hn]
    rw [h1]
    unfold fetchElevationTile
    rw [hc, hn₂]

/-- Witness for claim C10: a concrete failed fetch caches nothing and the
retry hits the network and stores the decoded buffer. -/
theorem fetchElevationTile_cache_discipline_witness :
    fetchElevationTile (fun _ => Except.error ()) [] ((14, 3, 5) : TileKey) =
        (Except.error (), ([] : Cache)) ∧
    fetchElevationTile (fun _ => Except.ok ([1, 2, 3] : TileData))
        (fetchElevationTile (fun _ => Except.error ()) []
          ((14, 3, 5) : TileKey)).2 ((14, 3, 5) : TileKey) =
      (Except.ok ([1, 2, 3] : TileData),
        [(((14, 3, 5) : TileKey), ([1, 2, 3] : TileData))]) :=
  ⟨(fetchElevationTile_cache_discipline (fun _ => Except.error ()) []
      ((14, 3, 5) : TileKey)).2.1 () rfl rfl,
    (fetchElevationTile_cache_discipline (fun _ => Except.error ()) []
      ((14, 3, 5) : TileKey)).2.2.2 (fun _ => Except.ok ([1, 2, 3] : TileData))
      ([1, 2, 3] : TileData) rfl rfl rfl⟩

/-- Claim C9: at the fixed zoom the continuous tile x coordinate is
strictly increasing in longitude, and for northern-hemisphere latitudes
inside the valid Mercator band the continuous tile y coordinate is
strictly decreasing in latitude. -/
theorem tileCoordinates_monotone :
    (∀ lon₁ lon₂ : ℝ, lon₁ < lon₂ →
      tileXCoordinate lon₁ < tileXCoordinate lon₂) ∧
    (∀ lat₁ lat₂ : ℝ, 0 ≤ lat₁ → lat₁ < lat₂ → lat₂ < 85.05 →
      tileYCoordinate lat₂ < tileYCoordinate lat₁) := by
  have hN : (0 : ℝ) < (2 : ℝ) ^ TILE_ZOOM := by positivity
  have hpi := Real.pi_pos
  constructor
  · intro lon₁ lon₂ h
    unfold tileXCoordinate
    have h1 : (lon₁ + 180) / 360 < (lon₂ + 180) / 360 := by linarith
    exact mul_lt_mul_of_pos_right h1 hN
  · intro lat₁ lat₂ h0 hlt hub
    simp only [tileYCoordinate]
    set th₁ := lat₁ * Real.pi / 180 with hth₁
    set th₂ := lat₂ * Real.pi / 180 with hth₂
    have hth0 : 0 ≤ th₁ := by
      rw [hth₁]
      exact div_nonneg (mul_nonneg h0 hpi.le) (by norm_num)
    have hthlt : th₁ < th₂ := by
      rw [hth₁, hth₂]
      exact (div_lt_div_iff_of_pos_right (by norm_num : (0 : ℝ) < 180)).mpr
        (mul_lt_mul_of_pos_right hlt hpi)
    have hth₂ub : th₂ < Real.pi / 2 := by
      rw [hth₂]
      have h90 : lat₂ * Real.pi < 90 * Real.pi :=
        mul_lt_mul_of_pos_right (by linarith) hpi
      linarith
    have hcos₁ : 0 < Real.cos th₁ :=
      Real.cos_pos_of_mem_Ioo ⟨by linarith, by linarith⟩
    have hcos₂ : 0 < Real.cos th₂ :=
      Real.cos_pos_of_mem_Ioo ⟨by linarith, hth₂ub⟩
    have htan : Real.tan th₁ < Real.tan th₂ :=
      Real.strictMonoOn_tan ⟨by linarith, by linarith⟩
        ⟨by linarith, hth₂ub⟩ hthlt
    have hcoslt : Real.cos th₂ < Real.cos th₁ :=
      Real.strictAntiOn_cos ⟨hth0, by linarith⟩
        ⟨by linarith, by linarith⟩ hthlt
    have hsec : 1 / Real.cos th₁ < 1 / Real.cos th₂ :=
      one_div_lt_one_div_of_lt hcos₂ hcoslt
    have hg₁ : 0 < Real.tan th₁ + 1 / Real.cos th₁ := by
      have ht := Real.tan_nonneg_of_nonneg_of_le_pi_div_two hth0 (by linarith)
      have hs : 0 < 1 / Real.cos th₁ := by positivity
      linarith
    have hlog : Real.log (Real.tan th₁ + 1 / Real.cos th₁) <
        Real.log (Real.tan th₂ + 1 / Real.cos th₂) :=
      Real.log_lt_log hg₁ (by linarith)
    have hdiv : Real.log (Real.tan th₁ + 1 / Real.cos th₁) / Real.pi <
        Real.log (Real.tan th₂ + 1 / Real.cos th₂) / Real.pi :=
      (div_lt_div_iff_of_pos_right hpi).mpr hlog
    have hhalf : (1 - Real.log (Real.tan th₂ + 1 / Real.cos th₂) / Real.pi) / 2 <
        (1 - Real.log (Real.tan th₁ + 1 / Real.cos th₁) / Real.pi) / 2 := by
      linarith
    exact mul_lt_mul_of_pos_right hhalf hN

/-- Witness for claim C9 at concrete longitudes and latitudes. -/
theorem tileCoordinates_monotone_witness :
    tileXCoordinate 0 < tileXCoordinate 1 ∧
      tileYCoordinate 20 < tileYCoordinate 10 :=
  ⟨tileCoordinates_monotone.1 0 1 (by norm_num),
    tileCoordinates_monotone.2 10 20 (by norm_num) (by norm_num)
      (by norm_num)⟩
